import Mathlib

/-
  Verification development for the pi-netboot-server repository.

  Part 1: the Imaging Agent (src/pi-service/netboot-imager-service.py),
  shallowly embedded: the write-progress record, the IP allow-list check
  (`validate_ip`), and the `/write-image` handler (`handle_write_image`),
  with external subprocess outcomes supplied by an oracle environment.

  Part 2: the Fleet Console (src/webui/app.py): boot-event correlation
  (`parse_boot_events`) and image activation (`activate_image`).
-/

set_option autoImplicit false

namespace Netboot

/-- Stages of the agent's global write-progress record
(the `stage` values that appear in the source). -/
inductive Stage where
  | idle
  | wiping
  | downloading
  | writing
  | syncing
  | complete
  | error
  deriving DecidableEq, Repr

/-- The agent's global `write_progress` record (without the lock, which only
guards the four data fields). -/
structure Progress where
  stage : Stage
  percent : Nat
  message : String
  errField : Option String
  deriving DecidableEq, Repr

/-- `update_progress(stage, percent, message, error=None)`: overwrites every
field of the global progress record. -/
def update_progress (stage : Stage) (percent : Nat) (message : String)
    (err : Option String) : Progress :=
  { stage := stage, percent := percent, message := message, errField := err }

/-- The agent's startup progress state (`stage idle, percent 0`). -/
def initialProgress : Progress :=
  update_progress Stage.idle 0 "" none

/-- Agent configuration (`allowed_ips` and `shared_secret` from config.json). -/
structure Config where
  allowed_ips : List String
  shared_secret : String
  deriving DecidableEq, Repr

/-- The default configuration built into `load_config`. -/
def defaultConfig : Config :=
  { allowed_ips := ["10.10.200.75", "10.10.200.0/24"],
    shared_secret := "openseastack-netboot-2024" }

/-- Characters of `s` before the first occurrence of `c`
(Python `s.split(c)[0]`). -/
def charsBeforeFirst (c : Char) : List Char → List Char
  | [] => []
  | x :: xs => if x = c then [] else x :: charsBeforeFirst c xs

/-- Characters of `l` before the last occurrence of `c`, or `none` when `c`
does not occur. -/
def charsBeforeLast (c : Char) : List Char → Option (List Char)
  | [] => none
  | x :: xs =>
    match charsBeforeLast c xs with
    | some r => some (x :: r)
    | none => if x = c then some [] else none

/-- Python `s.split(c)[0]` on strings. -/
def pySplitHead (s : String) (c : Char) : String :=
  ⟨charsBeforeFirst c s.data⟩

/-- Python `s.rsplit(c, 1)[0]` on strings: everything before the last
occurrence of `c`, or `s` itself when `c` does not occur. -/
def pyRsplitHead (s : String) (c : Char) : String :=
  match charsBeforeLast c s.data with
  | some r => ⟨r⟩
  | none => s

/-- `validate_ip`: for each allowed pattern, a pattern containing `/` is
treated as CIDR and matched by string prefix against
`pattern.split('/')[0].rsplit('.', 1)[0]`; otherwise exact equality. -/
def validate_ip (cfg : Config) (client_ip : String) : Bool :=
  cfg.allowed_ips.any fun pat =>
    if pat.data.contains '/' then
      let network := pyRsplitHead (pySplitHead pat '/') '.'
      network.data.isPrefixOf client_ip.data
    else
      client_ip == pat

/-- Python truthiness of an optional string (`None` and `''` are falsy). -/
def pyTruthyStr : Option String → Bool
  | none => false
  | some s => s != ""

/-- Outcome of one `subprocess.run` call, as seen by the handler: a normal
exit (with a return code and captured stderr), a `FileNotFoundError`/`OSError`
raise, or a `TimeoutExpired` raise. -/
inductive RunOutcome where
  | exitedWith (code : Int) (stderr : String)
  | raiseNotFound
  | raiseTimeout
  deriving DecidableEq, Repr

/-- Outcome of the final `subprocess.run(['sync'], check=True)` call, which is
run without a timeout: a normal exit or a `FileNotFoundError` raise (a nonzero
exit makes `check=True` raise `CalledProcessError`). -/
inductive SyncOutcome where
  | exitedWith (code : Int)
  | raiseNotFound
  deriving DecidableEq, Repr

/-- Oracle for the outcomes of the external commands the handler may run,
in source order. -/
structure Env where
  wipefsRun : RunOutcome
  ddWipeRun : RunOutcome
  partprobeRun : RunOutcome
  blockdevRun : RunOutcome
  syncRefreshRun : RunOutcome
  ddWriteRun : RunOutcome
  syncFinalRun : SyncOutcome
  deriving DecidableEq, Repr

/-- JSON body of an agent HTTP response: either `{'error': msg}` or
`{'success': True, 'message': msg, 'output': out}`. -/
inductive RespBody where
  | err (msg : String)
  | ok (message : String) (output : String)
  deriving DecidableEq, Repr

/-- The `success` field of a response body, when present. -/
def RespBody.successField : RespBody → Option Bool
  | .err _ => none
  | .ok _ _ => some true

/-- What a run of `handle_write_image` produces: the HTTP status and JSON
body sent, the ordered list of `update_progress` records written, and the
ordered list of external commands invoked. -/
structure HandlerOut where
  status : Nat
  body : RespBody
  trace : List Progress
  cmds : List String
  deriving DecidableEq, Repr

/-- The progress record after a handler run that started from record `p0`:
the last update written, or `p0` when no update was written. -/
def finalProgress (p0 : Progress) (out : HandlerOut) : Progress :=
  out.trace.getLastD p0

/-- Parsed `/write-image` request body: `json.loads` failure, or a parsed
object with optional `device` and `image_url` fields. -/
inductive ReqBody where
  | invalid
  | parsed (device : Option String) (image_url : Option String)
  deriving DecidableEq, Repr

/-- An incoming `/write-image` request: caller address, optional
`X-Netboot-Token` header, and body. -/
structure Request where
  client_ip : String
  token : Option String
  body : ReqBody
  deriving DecidableEq, Repr

/-- The fixed device allow-list from `handle_write_image`. -/
def valid_devices : List String :=
  ["/dev/mmcblk0", "/dev/mmcblk1", "/dev/nvme0n1", "/dev/sda"]

/-- An exception escaping the handler's `try` block: `TimeoutExpired`
(answered with 504) or any other exception, carried with its text
(answered with 500). -/
inductive AbortKind where
  | timeoutExpired
  | exc (msg : String)
  deriving DecidableEq, Repr

/-- The error-stage progress record written for a `TimeoutExpired` abort. -/
def timeoutProgress : Progress :=
  update_progress Stage.error 0 "Write operation timed out"
    (some "Timeout after 10 minutes")

/-- The error-stage progress record written for a generic exception abort. -/
def excProgress (msg : String) : Progress :=
  update_progress Stage.error 0 (s!"Error: {msg}") (some msg)

/-- The handler output produced by an abort, given the progress updates and
commands accumulated before the exception. -/
def AbortKind.toOut : AbortKind → List Progress → List String → HandlerOut
  | .timeoutExpired, tr, cs =>
    { status := 504, body := RespBody.err "Write operation timed out after 10 minutes",
      trace := tr ++ [timeoutProgress], cmds := cs }
  | .exc msg, tr, cs =>
    { status := 500, body := RespBody.err msg,
      trace := tr ++ [excProgress msg], cmds := cs }

/-- Command line of the `wipefs` call. -/
def wipefsCmd (device : String) : String := s!"wipefs -a {device}"

/-- Shell line of the `dd` zero-fill fallback. -/
def ddWipeCmd (device : String) : String :=
  s!"dd if=/dev/zero of={device} bs=1M count=10"

/-- Shell line of the download-and-write pipeline, chosen by whether the URL
ends in `.gz`. -/
def ddWriteCmd (device url : String) : String :=
  if (".gz".data).isSuffixOf url.data then
    s!"curl -s {url} | gunzip | dd of={device} bs=4M"
  else
    s!"curl -s {url} | dd of={device} bs=4M"

/-- The partition-wipe step: run `wipefs`; on nonzero exit or a
`FileNotFoundError`/`OSError`, fall back to the `dd` zero-fill (whose exit
code is ignored); exceptions from `wipefs` other than those, and any
exception from the fallback, escape to the outer handlers. Returns the
commands attempted and an abort, if one escapes. -/
def wipeStep (device : String) (env : Env) : List String × Option AbortKind :=
  match env.wipefsRun with
  | .exitedWith code _ =>
    if code = 0 then ([wipefsCmd device], none)
    else
      match env.ddWipeRun with
      | .exitedWith _ _ => ([wipefsCmd device, ddWipeCmd device], none)
      | .raiseTimeout => ([wipefsCmd device, ddWipeCmd device], some AbortKind.timeoutExpired)
      | .raiseNotFound =>
        ([wipefsCmd device, ddWipeCmd device], some (AbortKind.exc "FileNotFoundError"))
  | .raiseNotFound =>
    match env.ddWipeRun with
    | .exitedWith _ _ => ([wipefsCmd device, ddWipeCmd device], none)
    | .raiseTimeout => ([wipefsCmd device, ddWipeCmd device], some AbortKind.timeoutExpired)
    | .raiseNotFound =>
      ([wipefsCmd device, ddWipeCmd device], some (AbortKind.exc "FileNotFoundError"))
  | .raiseTimeout => ([wipefsCmd device], some AbortKind.timeoutExpired)

/-- The partition-table refresh step: `partprobe`, falling back on any raise
to `blockdev --rereadpt`, falling back on any raise to `sync`; a raise from
that last `sync` escapes to the outer handlers (exit codes are ignored). -/
def refreshStep (device : String) (env : Env) : List String × Option AbortKind :=
  match env.partprobeRun with
  | .exitedWith _ _ => ([s!"partprobe {device}"], none)
  | _ =>
    match env.blockdevRun with
    | .exitedWith _ _ => ([s!"partprobe {device}", s!"blockdev --rereadpt {device}"], none)
    | _ =>
      match env.syncRefreshRun with
      | .exitedWith _ _ =>
        ([s!"partprobe {device}", s!"blockdev --rereadpt {device}", "sync"], none)
      | .raiseTimeout =>
        ([s!"partprobe {device}", s!"blockdev --rereadpt {device}", "sync"],
         some AbortKind.timeoutExpired)
      | .raiseNotFound =>
        ([s!"partprobe {device}", s!"blockdev --rereadpt {device}", "sync"],
         some (AbortKind.exc "FileNotFoundError"))

/-- The first two progress updates of every write attempt. -/
def wipePhaseTrace (device : String) : List Progress :=
  [update_progress Stage.wiping 0 (s!"Preparing to write image to {device}") none,
   update_progress Stage.wiping 5 (s!"Wiping partition table on {device}...") none]

/-- The `writing` progress update written just before the download. -/
def writingProgress : Progress :=
  update_progress Stage.writing 10
    "Partition table wiped, downloading and writing image..." none

/-- The download-and-write tail of the handler: run the `curl … | dd` pipeline
with the 600-second timeout; on exit 0, run `sync` with `check=True` and on
its success report completion; a nonzero `dd` exit answers 500 with the
captured stderr; `TimeoutExpired` and other exceptions escape as aborts. -/
def writeTail (device url : String) (env : Env) (preCmds : List String) : HandlerOut :=
  let cs := preCmds ++ [ddWriteCmd device url]
  let pre3 := wipePhaseTrace device ++ [writingProgress]
  match env.ddWriteRun with
  | .exitedWith code stderr =>
    if code = 0 then
      let pre4 := pre3 ++
        [update_progress Stage.syncing 95 "Image written, synchronizing filesystem..." none]
      match env.syncFinalRun with
      | .exitedWith scode =>
        if scode = 0 then
          { status := 200,
            body := RespBody.ok (s!"Image successfully written to {device}") stderr,
            trace := pre4 ++
              [update_progress Stage.complete 100
                (s!"Image successfully written to {device}") none],
            cmds := cs ++ ["sync"] }
        else
          (AbortKind.exc "CalledProcessError").toOut pre4 (cs ++ ["sync"])
      | .raiseNotFound =>
        (AbortKind.exc "FileNotFoundError").toOut pre4 (cs ++ ["sync"])
    else
      { status := 500, body := RespBody.err stderr,
        trace := pre3 ++ [update_progress Stage.error 0 "Write failed" (some stderr)],
        cmds := cs }
  | .raiseTimeout => AbortKind.timeoutExpired.toOut pre3 cs
  | .raiseNotFound => (AbortKind.exc "FileNotFoundError").toOut pre3 cs

/-- The body of the handler's `try` block, after validation: the two `wiping`
updates, the wipe step, the refresh step, the `writing` update, and the
download-and-write tail. -/
def runWrite (device url : String) (env : Env) : HandlerOut :=
  match (wipeStep device env).2 with
  | some k => k.toOut (wipePhaseTrace device) (wipeStep device env).1
  | none =>
    match (refreshStep device env).2 with
    | some k =>
      k.toOut (wipePhaseTrace device) ((wipeStep device env).1 ++ (refreshStep device env).1)
    | none => writeTail device url env ((wipeStep device env).1 ++ (refreshStep device env).1)

/-- `handle_write_image`: validate the caller IP, then the shared-secret
token, then parse the body, default the device to `/dev/mmcblk0`, require an
`image_url`, check the device allow-list, and only then enter the write
sequence. Rejections send no progress update and run no command. -/
def handle_write_image (cfg : Config) (req : Request) (env : Env) : HandlerOut :=
  if ¬ validate_ip cfg req.client_ip then
    { status := 403, body := RespBody.err (s!"Unauthorized IP: {req.client_ip}"),
      trace := [], cmds := [] }
  else if req.token ≠ some cfg.shared_secret then
    { status := 403, body := RespBody.err "Invalid token", trace := [], cmds := [] }
  else
    match req.body with
    | ReqBody.invalid =>
      { status := 400, body := RespBody.err "Invalid JSON", trace := [], cmds := [] }
    | ReqBody.parsed dev url =>
      let device := dev.getD "/dev/mmcblk0"
      if ¬ pyTruthyStr url then
        { status := 400, body := RespBody.err "image_url required", trace := [], cmds := [] }
      else if device ∉ valid_devices then
        { status := 400, body := RespBody.err "Invalid device", trace := [], cmds := [] }
      else
        runWrite device (url.getD "") env

/-- The JSON object sent by `do_GET` for `/status`: the four data fields of
the progress record. -/
structure StatusResp where
  stage : Stage
  percent : Nat
  message : String
  errField : Option String
  deriving DecidableEq, Repr

/-- `do_GET /status`: report the current progress record verbatim. -/
def statusOf (p : Progress) : StatusResp :=
  { stage := p.stage, percent := p.percent, message := p.message, errField := p.errField }

/-- One step of the progress-percent discipline within a write attempt: the
percent does not decrease, except on the transition into the `error`
stage. -/
def percentStep (a b : Progress) : Prop :=
  a.percent ≤ b.percent ∨ b.stage = Stage.error

/-
  Fleet Console (src/webui/app.py): boot-event correlation.
  Timestamps are modelled as integer seconds (`datetime` differences in the
  source are compared through `total_seconds()`).
-/

/-- A PXE boot event parsed from the dnsmasq log: timestamp and MAC. -/
structure BootEv where
  time : Int
  mac : String
  deriving DecidableEq, Repr

/-- A TFTP transfer event parsed from the dnsmasq log: timestamp and IP. -/
structure TftpEv where
  time : Int
  ip : String
  deriving DecidableEq, Repr

/-- One entry of the persisted boot history, keyed by MAC. -/
structure HistEntry where
  mac : String
  last_boot : Int
  boot_count : Nat
  last_ip : Option String
  deriving DecidableEq, Repr

/-- The boot-history dict, as an association list in insertion order. -/
abbrev History := List (String × HistEntry)

/-- Python `history[mac]` lookup (`mac in history` test). Keys are unique,
as in a Python dict. -/
def histFind : History → String → Option HistEntry
  | [], _ => none
  | p :: t, k => if p.1 == k then some p.2 else histFind t k

/-- Python `history[mac] = v`: overwrite in place when the key exists,
append otherwise. -/
def histSet : History → String → HistEntry → History
  | [], k, v => [(k, v)]
  | p :: t, k, v => if p.1 == k then (k, v) :: t else p :: histSet t k v

/-- The inner correlation loop of `parse_boot_events`: the first TFTP
transfer (in log order) whose timestamp is between 0 and 30 seconds
(inclusive) after the boot supplies the matching IP. -/
def findMatchingIp (tftps : List TftpEv) (bootTime : Int) : Option String :=
  (tftps.find? fun t =>
    decide (0 ≤ t.time - bootTime ∧ t.time - bootTime ≤ 30)).map (·.ip)

/-- Processing one PXE boot event against the history, as in the body of the
`for boot in boot_events` loop: an unseen MAC gets a fresh entry with
`boot_count` 1; a known MAC is updated only when strictly more than 120
seconds have elapsed since its recorded `last_boot`, incrementing
`boot_count`, moving `last_boot`, and taking the matched IP when one is
truthy. -/
def processBoot (tftps : List TftpEv) (h : History) (b : BootEv) : History :=
  let matching := findMatchingIp tftps b.time
  match histFind h b.mac with
  | none =>
    histSet h b.mac
      { mac := b.mac, last_boot := b.time, boot_count := 1, last_ip := matching }
  | some e =>
    if b.time - e.last_boot > 120 then
      histSet h b.mac
        { mac := b.mac, last_boot := b.time, boot_count := e.boot_count + 1,
          last_ip := if pyTruthyStr matching then matching else e.last_ip }
    else
      h

/-- The whole correlation pass of `parse_boot_events` over the parsed boot
events, in log order. -/
def processBoots (tftps : List TftpEv) (h : History) (bs : List BootEv) : History :=
  bs.foldl (processBoot tftps) h

/-
  Fleet Console: image activation (`activate_image`).
-/

/-- Console filesystem state relevant to activation: which image names have
an existing `rootfs-raw` subdirectory, and the current target of the active
symlink (`none` when the link is absent). -/
structure ConsoleFs where
  rootfsExists : String → Bool
  activeLink : Option String

/-- Oracle for the symlink manipulation in `activate_image`: both operations
succeed, or `unlink` raises, or `symlink_to` raises after the unlink. -/
inductive LinkOps where
  | ok
  | unlinkRaise
  | symlinkRaise
  deriving DecidableEq, Repr

/-- The symlink target `IMAGES_DIR / name / 'rootfs-raw'`, relative to the
images root. -/
def rootfsTarget (name : String) : String := s!"{name}/rootfs-raw"

/-- `activate_image`: missing or empty name answers 400; a name whose
`rootfs-raw` subdirectory does not exist answers 404 before any symlink
operation; otherwise the old link is removed and replaced, a raise from
either operation answering 500. Returns the HTTP status and the resulting
filesystem state. -/
def activate_image (fs : ConsoleFs) (name : Option String) (ops : LinkOps) :
    Nat × ConsoleFs :=
  match name with
  | none => (400, fs)
  | some n =>
    if n = "" then (400, fs)
    else if ¬ fs.rootfsExists n then (404, fs)
    else
      match ops with
      | LinkOps.unlinkRaise => (500, fs)
      | LinkOps.symlinkRaise => (500, { fs with activeLink := none })
      | LinkOps.ok => (200, { fs with activeLink := some (rootfsTarget n) })

/-
  Concrete fixtures for witnesses and counterexamples.
-/

/-- A request from an allow-listed IP with the correct token, device
`/dev/mmcblk0` and a `.gz` image URL. -/
def reqGood : Request :=
  { client_ip := "10.10.200.75", token := some "openseastack-netboot-2024",
    body := ReqBody.parsed (some "/dev/mmcblk0") (some "http://x/img.gz") }

/-- The same request from an IP outside the allow-list. -/
def reqBadIp : Request :=
  { reqGood with client_ip := "192.168.1.5" }

/-- The same request with a wrong token. -/
def reqBadToken : Request :=
  { reqGood with token := some "wrong" }

/-- The same request naming a device outside the fixed allow-list. -/
def reqBadDevice : Request :=
  { reqGood with body := ReqBody.parsed (some "/dev/sdz") (some "http://x/img.gz") }

/-- The same request with no `device` field in the body. -/
def reqNoDevice : Request :=
  { reqGood with body := ReqBody.parsed none (some "http://x/img.gz") }

/-- An environment in which every external command succeeds. -/
def envAllOk : Env :=
  { wipefsRun := RunOutcome.exitedWith 0 "",
    ddWipeRun := RunOutcome.exitedWith 0 "",
    partprobeRun := RunOutcome.exitedWith 0 "",
    blockdevRun := RunOutcome.exitedWith 0 "",
    syncRefreshRun := RunOutcome.exitedWith 0 "",
    ddWriteRun := RunOutcome.exitedWith 0 "1024+0 records out",
    syncFinalRun := SyncOutcome.exitedWith 0 }

/-- All commands succeed except the final `sync`, which exits nonzero. -/
def envSyncFail : Env :=
  { envAllOk with syncFinalRun := SyncOutcome.exitedWith 1 }

/-- All commands succeed except the download-and-write pipeline, which hits
the 600-second timeout. -/
def envDdTimeout : Env :=
  { envAllOk with ddWriteRun := RunOutcome.raiseTimeout }

/-- A one-entry boot history: MAC `aa:bb` last booted at time 0 with
`boot_count` 1 and no recorded IP. -/
def hist0 : History :=
  [("aa:bb", { mac := "aa:bb", last_boot := 0, boot_count := 1, last_ip := none })]

/-- A console filesystem in which no image has a `rootfs-raw` subdirectory
and the active symlink points at an old image. -/
def fsNoRootfs : ConsoleFs :=
  { rootfsExists := fun _ => false, activeLink := some "old/rootfs-raw" }

/-
  Theorems. Helper lemmas first, then one theorem per claim.
-/

/-- A nonempty list's `getLastD` is a member of the list. -/
theorem getLastD_mem_cons {α : Type} (a : α) (t : List α) (d : α) :
    (a :: t).getLastD d ∈ a :: t := by
  induction t generalizing a d with
  | nil => simp [List.getLastD_cons, List.getLastD_nil]
  | cons b t' ih =>
    rw [List.getLastD_cons]
    exact List.mem_cons_of_mem a (ih b a)

/-- Every run of the write sequence produces one of seven progress traces:
wipe-phase timeout, wipe-phase exception, download timeout, download
exception, nonzero download exit, final-sync failure, or full success. -/
theorem runWrite_trace_cases (device url : String) (env : Env) :
    (runWrite device url env).trace = wipePhaseTrace device ++ [timeoutProgress] ∨
    (∃ m, (runWrite device url env).trace = wipePhaseTrace device ++ [excProgress m]) ∨
    (runWrite device url env).trace =
      wipePhaseTrace device ++ [writingProgress, timeoutProgress] ∨
    (∃ m, (runWrite device url env).trace =
      wipePhaseTrace device ++ [writingProgress, excProgress m]) ∨
    (∃ s, (runWrite device url env).trace =
      wipePhaseTrace device ++ [writingProgress,
        update_progress Stage.error 0 "Write failed" (some s)]) ∨
    (∃ m, (runWrite device url env).trace =
      wipePhaseTrace device ++ [writingProgress,
        update_progress Stage.syncing 95 "Image written, synchronizing filesystem..." none,
        excProgress m]) ∨
    (runWrite device url env).trace =
      wipePhaseTrace device ++ [writingProgress,
        update_progress Stage.syncing 95 "Image written, synchronizing filesystem..." none,
        update_progress Stage.complete 100
          (s!"Image successfully written to {device}") none] := by
  unfold runWrite
  rcases hw : (wipeStep device env).2 with _ | k
  · rcases hr : (refreshStep device env).2 with _ | k
    · unfold writeTail
      rcases hdd : env.ddWriteRun with ⟨c, s⟩ | _ | _
      · by_cases hc : c = 0
        · rcases hsf : env.syncFinalRun with ⟨sc⟩ | _
          · by_cases hsc : sc = 0
            · iterate 6 right
              simp [hc, hsc, List.append_assoc]
            · right; right; right; right; right; left
              exact ⟨"CalledProcessError",
                by simp [hc, hsc, AbortKind.toOut, List.append_assoc]⟩
          · right; right; right; right; right; left
            exact ⟨"FileNotFoundError",
              by simp [hc, AbortKind.toOut, List.append_assoc]⟩
        · right; right; right; right; left
          exact ⟨s, by simp [hc, List.append_assoc]⟩
      · right; right; right; left
        exact ⟨"FileNotFoundError", by simp [AbortKind.toOut, List.append_assoc]⟩
      · right; right; left
        simp [AbortKind.toOut, List.append_assoc]
    · cases k with
      | timeoutExpired => left; simp [AbortKind.toOut]
      | exc m => right; left; exact ⟨m, by simp [AbortKind.toOut]⟩
  · cases k with
    | timeoutExpired => left; simp [AbortKind.toOut]
    | exc m => right; left; exact ⟨m, by simp [AbortKind.toOut]⟩

/-- Every run of the write sequence answers one of the statuses 200, 500,
504. -/
theorem runWrite_status_cases (device url : String) (env : Env) :
    (runWrite device url env).status = 200 ∨ (runWrite device url env).status = 500 ∨
    (runWrite device url env).status = 504 := by
  unfold runWrite
  rcases hw : (wipeStep device env).2 with _ | k
  · rcases hr : (refreshStep device env).2 with _ | k
    · unfold writeTail
      rcases hdd : env.ddWriteRun with ⟨c, s⟩ | _ | _
      · by_cases hc : c = 0
        · rcases hsf : env.syncFinalRun with ⟨sc⟩ | _
          · by_cases hsc : sc = 0
            · simp [hc, hsc]
            · simp [hc, hsc, AbortKind.toOut]
          · simp [hc, AbortKind.toOut]
        · simp [hc]
      · simp [AbortKind.toOut]
      · simp [AbortKind.toOut]
    · cases k with
      | timeoutExpired => simp [AbortKind.toOut]
      | exc m => simp [AbortKind.toOut]
  · cases k with
    | timeoutExpired => simp [AbortKind.toOut]
    | exc m => simp [AbortKind.toOut]

/-- Every run of the write sequence begins its trace with the `wiping 0`
reset record. -/
theorem runWrite_trace_head (device url : String) (env : Env) :
    (runWrite device url env).trace.head? =
      some (update_progress Stage.wiping 0
        (s!"Preparing to write image to {device}") none) ∧
    (runWrite device url env).trace ≠ [] := by
  rcases runWrite_trace_cases device url env with
    h | ⟨m, h⟩ | h | ⟨m, h⟩ | ⟨s, h⟩ | ⟨m, h⟩ | h <;>
    rw [h] <;> simp [wipePhaseTrace]

/-- `handle_write_image` either rejects the request (no trace, no command)
or runs the write sequence for the resolved device and URL. -/
theorem handle_cases (cfg : Config) (req : Request) (env : Env) :
    ((handle_write_image cfg req env).trace = [] ∧
     (handle_write_image cfg req env).cmds = []) ∨
    ∃ device url, handle_write_image cfg req env = runWrite device url env := by
  by_cases h1 : validate_ip cfg req.client_ip = true
  · by_cases h2 : req.token = some cfg.shared_secret
    · rcases hb : req.body with _ | ⟨dev, url⟩
      · left
        constructor <;> simp [handle_write_image, h1, h2, hb]
      · by_cases h4 : pyTruthyStr url = true
        · by_cases h5 : dev.getD "/dev/mmcblk0" ∈ valid_devices
          · right
            exact ⟨dev.getD "/dev/mmcblk0", url.getD "",
              by simp [handle_write_image, h1, h2, hb, h4, h5]⟩
          · left
            constructor <;> simp [handle_write_image, h1, h2, hb, h4, h5]
        · left
          constructor <;> simp [handle_write_image, h1, h2, hb, h4]
    · left
      constructor <;> simp [handle_write_image, h1, h2]
  · left
    constructor <;> simp [handle_write_image, h1]

/-- An authorized, well-formed request reduces `handle_write_image` to the
write sequence on the resolved device and URL. -/
theorem handle_authorized_eq (cfg : Config) (req : Request) (env : Env)
    (dev url : Option String)
    (h1 : validate_ip cfg req.client_ip = true)
    (h2 : req.token = some cfg.shared_secret)
    (h3 : req.body = ReqBody.parsed dev url)
    (h4 : pyTruthyStr url = true)
    (h5 : dev.getD "/dev/mmcblk0" ∈ valid_devices) :
    handle_write_image cfg req env =
      runWrite (dev.getD "/dev/mmcblk0") (url.getD "") env := by
  simp [handle_write_image, h1, h2, h3, h4, h5]

/-- C1: a `/write-image` request from a non-allow-listed IP is answered 403;
from an allowed IP but with a wrong token, 403; authorized but (with a parsed
body and a present image URL) naming a device outside the fixed allow-list,
400; in all three cases no external command is run and the progress record is
left unchanged. -/
theorem write_image_rejections (cfg : Config) (req : Request) (env : Env) :
    (validate_ip cfg req.client_ip = false →
      (handle_write_image cfg req env).status = 403 ∧
      (handle_write_image cfg req env).cmds = [] ∧
      (handle_write_image cfg req env).trace = [] ∧
      ∀ p0 : Progress, finalProgress p0 (handle_write_image cfg req env) = p0) ∧
    (validate_ip cfg req.client_ip = true → req.token ≠ some cfg.shared_secret →
      (handle_write_image cfg req env).status = 403 ∧
      (handle_write_image cfg req env).cmds = [] ∧
      (handle_write_image cfg req env).trace = [] ∧
      ∀ p0 : Progress, finalProgress p0 (handle_write_image cfg req env) = p0) ∧
    (∀ dev url : Option String, validate_ip cfg req.client_ip = true →
      req.token = some cfg.shared_secret →
      req.body = ReqBody.parsed dev url → pyTruthyStr url = true →
      dev.getD "/dev/mmcblk0" ∉ valid_devices →
      (handle_write_image cfg req env).status = 400 ∧
      (handle_write_image cfg req env).cmds = [] ∧
      (handle_write_image cfg req env).trace = [] ∧
      ∀ p0 : Progress, finalProgress p0 (handle_write_image cfg req env) = p0) := by
  refine ⟨fun h1 => ?_, fun h1 h2 => ?_, fun dev url h1 h2 h3 h4 h5 => ?_⟩
  · simp [handle_write_image, h1, finalProgress]
  · simp [handle_write_image, h1, h2, finalProgress]
  · simp [handle_write_image, h1, h2, h3, h4, h5, finalProgress]

/-- Witness for `write_image_rejections` at concrete inputs: the default
configuration with a foreign IP, a wrong token, and a non-allow-listed
device. -/
theorem write_image_rejections_witness :
    (handle_write_image defaultConfig reqBadIp envAllOk).status = 403 ∧
    (handle_write_image defaultConfig reqBadToken envAllOk).status = 403 ∧
    (handle_write_image defaultConfig reqBadDevice envAllOk).status = 400 ∧
    (handle_write_image defaultConfig reqBadDevice envAllOk).cmds = [] := by
  refine ⟨((write_image_rejections defaultConfig reqBadIp envAllOk).1 (by decide)).1,
    ((write_image_rejections defaultConfig reqBadToken envAllOk).2.1
      (by decide) (by decide)).1, ?_, ?_⟩
  · exact ((write_image_rejections defaultConfig reqBadDevice envAllOk).2.2
      (some "/dev/sdz") (some "http://x/img.gz")
      (by decide) (by decide) (by decide) (by decide) (by decide)).1
  · exact ((write_image_rejections defaultConfig reqBadDevice envAllOk).2.2
      (some "/dev/sdz") (some "http://x/img.gz")
      (by decide) (by decide) (by decide) (by decide) (by decide)).2.1

/-- C9: activating an image whose `rootfs-raw` subdirectory does not exist
answers 404 and returns the filesystem state unchanged — in particular the
active symlink is neither removed nor retargeted, whatever the symlink
operations would have done. -/
theorem activate_missing_rootfs_is_404 (fs : ConsoleFs) (n : String)
    (ops : LinkOps) (hn : ¬ n = "") (hex : fs.rootfsExists n = false) :
    activate_image fs (some n) ops = (404, fs) := by
  simp [activate_image, hn, hex]

/-- Witness for `activate_missing_rootfs_is_404`: a filesystem with no
`rootfs-raw` directories and a populated active symlink. -/
theorem activate_missing_rootfs_is_404_witness :
    activate_image fsNoRootfs (some "imgX") LinkOps.ok = (404, fsNoRootfs) :=
  activate_missing_rootfs_is_404 fsNoRootfs "imgX" LinkOps.ok (by decide) rfl

/-- Setting a key in the history makes lookup of that key return the new
entry. -/
theorem histFind_histSet_self (h : History) (k : String) (v : HistEntry) :
    histFind (histSet h k v) k = some v := by
  induction h with
  | nil => simp [histSet, histFind]
  | cons p t ih =>
    by_cases hp : p.1 == k
    · simp [histSet, histFind, hp]
    · simp [histSet, histFind, hp, ih]

/-- C7 counterexample: with MAC `aa:bb` recorded at `last_boot` 0, a new PXE
event at time 120 — exactly 120 seconds elapsed, so "at least 120 seconds"
holds — leaves the history entry unchanged: `boot_count` stays 1 and
`last_boot` stays 0, because the source requires strictly more than 120
seconds. -/
theorem boot_at_exactly_120s_not_counted :
    histFind hist0 "aa:bb" =
      some { mac := "aa:bb", last_boot := 0, boot_count := 1, last_ip := none } ∧
    (BootEv.mk 120 "aa:bb").time -
      (0 : Int) = 120 ∧
    processBoot [] hist0 (BootEv.mk 120 "aa:bb") = hist0 ∧
    histFind (processBoot [] hist0 (BootEv.mk 120 "aa:bb")) "aa:bb" =
      some { mac := "aa:bb", last_boot := 0, boot_count := 1, last_ip := none } := by
  decide

/-- C7 (amended): for a MAC already in the history with entry `e`, a new PXE
event advances `boot_count` by exactly one (and moves `last_boot`) when
strictly more than 120 seconds have elapsed since `e.last_boot`, and leaves
the history completely unchanged when at most 120 seconds have elapsed; in
particular a whole batch of events for that MAC, all within 120 seconds of
`e.last_boot`, leaves the entry unchanged, so `boot_count` advances at most
once per 120-second window even when the log contains multiple PXE lines. -/
theorem boot_count_debounce (tftps : List TftpEv) (h : History) (m : String)
    (e : HistEntry) (he : histFind h m = some e) :
    (∀ b : BootEv, b.mac = m →
      (120 < b.time - e.last_boot →
        histFind (processBoot tftps h b) m =
          some { mac := m, last_boot := b.time, boot_count := e.boot_count + 1,
                 last_ip := if pyTruthyStr (findMatchingIp tftps b.time)
                   then findMatchingIp tftps b.time else e.last_ip }) ∧
      (b.time - e.last_boot ≤ 120 → processBoot tftps h b = h)) ∧
    (∀ bs : List BootEv,
      (∀ b' ∈ bs, b'.mac = m ∧ b'.time - e.last_boot ≤ 120) →
      processBoots tftps h bs = h) := by
  have step_le : ∀ b : BootEv, b.mac = m → b.time - e.last_boot ≤ 120 →
      processBoot tftps h b = h := by
    intro b hb hle
    simp only [processBoot, hb, he]
    rw [if_neg (by omega)]
  refine ⟨fun b hb => ⟨fun hgt => ?_, step_le b hb⟩, fun bs hbs => ?_⟩
  · simp only [processBoot, hb, he]
    rw [if_pos (by omega)]
    exact histFind_histSet_self h m _
  · induction bs with
    | nil => rfl
    | cons b' t ih =>
      have h1 := hbs b' (List.mem_cons_self b' t)
      have : processBoots tftps h (b' :: t) = processBoots tftps h t := by
        simp [processBoots, step_le b' h1.1 h1.2]
      rw [this]
      exact ih fun b hb => hbs b (List.mem_cons_of_mem b' hb)

/-- Witness for `boot_count_debounce`: a boot 121 seconds after the recorded
`last_boot` increments `boot_count` from 1 to 2. -/
theorem boot_count_debounce_witness :
    histFind (processBoot [] hist0 (BootEv.mk 121 "aa:bb")) "aa:bb" =
      some { mac := "aa:bb", last_boot := 121, boot_count := 2, last_ip := none } := by
  have := ((boot_count_debounce [] hist0 "aa:bb"
      { mac := "aa:bb", last_boot := 0, boot_count := 1, last_ip := none }
      (by decide)).1 (BootEv.mk 121 "aa:bb") rfl).1 (by decide)
  simpa using this

/-- C8: the correlation step only ever takes the IP of a TFTP transfer whose
timestamp is between 0 and 30 seconds (inclusive) after the PXE boot event;
when every transfer is outside that window — in particular 31 or more seconds
later, or any amount earlier — no IP is matched, and processing the boot
leaves the entry's `last_ip` unchanged whether or not `boot_count`
advances. -/
theorem tftp_correlation_window (tftps : List TftpEv) (b : BootEv)
    (h : History) (e : HistEntry) :
    (∀ ip : String, findMatchingIp tftps b.time = some ip →
      ∃ t ∈ tftps, t.ip = ip ∧ 0 ≤ t.time - b.time ∧ t.time - b.time ≤ 30) ∧
    ((∀ t ∈ tftps, ¬ (0 ≤ t.time - b.time ∧ t.time - b.time ≤ 30)) →
      findMatchingIp tftps b.time = none ∧
      (histFind h b.mac = some e →
        histFind (processBoot tftps h b) b.mac = some e ∨
        histFind (processBoot tftps h b) b.mac =
          some { mac := b.mac, last_boot := b.time,
                 boot_count := e.boot_count + 1, last_ip := e.last_ip })) := by
  constructor
  · intro ip hip
    rw [findMatchingIp, Option.map_eq_some'] at hip
    obtain ⟨t, hfind, hipEq⟩ := hip
    refine ⟨t, List.mem_of_find?_eq_some hfind, hipEq, ?_⟩
    have := List.find?_some hfind
    exact of_decide_eq_true this
  · intro hout
    have hnone : findMatchingIp tftps b.time = none := by
      rw [findMatchingIp, Option.map_eq_none']
      rw [List.find?_eq_none]
      intro t ht
      simpa using hout t ht
    refine ⟨hnone, fun he => ?_⟩
    by_cases hgt : 120 < b.time - e.last_boot
    · right
      simp only [processBoot, he, hnone]
      rw [if_pos (by omega)]
      rw [histFind_histSet_self]
      simp [pyTruthyStr]
    · left
      simp only [processBoot, he, hnone]
      rw [if_neg (by omega), he]

/-- Witness for `tftp_correlation_window`: a transfer 40 seconds after the
boot matches nothing. -/
theorem tftp_correlation_window_witness :
    findMatchingIp [TftpEv.mk 100 "10.0.0.9"] 60 = none := by
  have := ((tftp_correlation_window [TftpEv.mk 100 "10.0.0.9"]
      (BootEv.mk 60 "aa:bb") hist0
      { mac := "aa:bb", last_boot := 0, boot_count := 1, last_ip := none }).2
      (by decide)).1
  simpa using this

/-- C4: every write attempt that passes validation begins by resetting the
progress record to stage `wiping`, percent 0, and the resulting record of the
run does not depend on the prior progress record at all — notably a prior
`complete` or `error` record is simply overwritten. -/
theorem new_attempt_resets_progress (cfg : Config) (req : Request) (env : Env)
    (dev url : Option String)
    (h1 : validate_ip cfg req.client_ip = true)
    (h2 : req.token = some cfg.shared_secret)
    (h3 : req.body = ReqBody.parsed dev url)
    (h4 : pyTruthyStr url = true)
    (h5 : dev.getD "/dev/mmcblk0" ∈ valid_devices) :
    (∃ msg, (handle_write_image cfg req env).trace.head? =
      some (update_progress Stage.wiping 0 msg none)) ∧
    ∀ p0 p0' : Progress,
      finalProgress p0 (handle_write_image cfg req env) =
        finalProgress p0' (handle_write_image cfg req env) := by
  rw [handle_authorized_eq cfg req env dev url h1 h2 h3 h4 h5]
  have h := runWrite_trace_head (dev.getD "/dev/mmcblk0") (url.getD "") env
  refine ⟨⟨_, h.1⟩, fun p0 p0' => ?_⟩
  rcases htr : (runWrite (dev.getD "/dev/mmcblk0") (url.getD "") env).trace with _ | ⟨a, t⟩
  · exact absurd htr h.2
  · simp only [finalProgress, htr, List.getLastD_cons]

/-- Witness for `new_attempt_resets_progress`: the all-success run on the
default configuration starts with a `wiping 0` record. -/
theorem new_attempt_resets_progress_witness :
    ∃ msg, (handle_write_image defaultConfig reqGood envAllOk).trace.head? =
      some (update_progress Stage.wiping 0 msg none) :=
  (new_attempt_resets_progress defaultConfig reqGood envAllOk
    (some "/dev/mmcblk0") (some "http://x/img.gz")
    (by decide) (by decide) (by decide) (by decide) (by decide)).1

/-- C5: within a single write attempt, the recorded percent values never
decrease from one update to the next, except on the (at most one) transition
into the `error` stage; no `error`-stage record occurs anywhere but in the
final position of the attempt's trace. -/
theorem progress_percent_monotone (cfg : Config) (req : Request) (env : Env) :
    List.Chain' percentStep (handle_write_image cfg req env).trace ∧
    ∀ p ∈ (handle_write_image cfg req env).trace.dropLast,
      p.stage ≠ Stage.error := by
  rcases handle_cases cfg req env with ⟨htr, _⟩ | ⟨device, url, heq⟩
  · rw [htr]
    exact ⟨List.chain'_nil, by simp⟩
  · rw [heq]
    rcases runWrite_trace_cases device url env with
      h | ⟨m, h⟩ | h | ⟨m, h⟩ | ⟨s, h⟩ | ⟨m, h⟩ | h <;>
      rw [h] <;>
      constructor <;>
      simp [wipePhaseTrace, percentStep, update_progress, excProgress,
        timeoutProgress, writingProgress]

/-- C6: every progress update written with a stage other than `error` clears
the error field, so a `/status` response taken at any non-`error` record of
any run (or at an initial record satisfying the same discipline) reports a
null error. -/
theorem error_field_only_in_error (cfg : Config) (req : Request) (env : Env)
    (p0 : Progress) (h0 : p0.stage ≠ Stage.error → p0.errField = none) :
    (∀ p ∈ (handle_write_image cfg req env).trace,
      p.stage ≠ Stage.error → (statusOf p).errField = none) ∧
    ((finalProgress p0 (handle_write_image cfg req env)).stage ≠ Stage.error →
      (statusOf (finalProgress p0 (handle_write_image cfg req env))).errField =
        none) := by
  have hmem : ∀ p ∈ (handle_write_image cfg req env).trace,
      p.stage ≠ Stage.error → p.errField = none := by
    rcases handle_cases cfg req env with ⟨htr, _⟩ | ⟨device, url, heq⟩
    · rw [htr]; simp
    · rw [heq]
      rcases runWrite_trace_cases device url env with
        h | ⟨m, h⟩ | h | ⟨m, h⟩ | ⟨s, h⟩ | ⟨m, h⟩ | h <;>
        rw [h] <;>
        simp [wipePhaseTrace, update_progress, excProgress, timeoutProgress,
          writingProgress]
  refine ⟨fun p hp hs => by simpa [statusOf] using hmem p hp hs, fun hs => ?_⟩
  rcases htr : (handle_write_image cfg req env).trace with _ | ⟨a, t⟩
  · have hfin : finalProgress p0 (handle_write_image cfg req env) = p0 := by
      simp [finalProgress, htr]
    rw [hfin] at hs ⊢
    simpa [statusOf] using h0 hs
  · have hin : finalProgress p0 (handle_write_image cfg req env) ∈
        (handle_write_image cfg req env).trace := by
      rw [htr]
      simpa [finalProgress, htr] using getLastD_mem_cons a t p0
    simpa [statusOf] using hmem _ hin hs

/-- Witness for `error_field_only_in_error`: the final record of the
all-success run reports a null error over `/status`. -/
theorem error_field_only_in_error_witness :
    (statusOf (finalProgress initialProgress
      (handle_write_image defaultConfig reqGood envAllOk))).errField = none := by
  exact (error_field_only_in_error defaultConfig reqGood envAllOk
    initialProgress (by decide)).2 (by decide)

/-- C2 counterexample: an authorized request for `/dev/mmcblk0` with a `.gz`
URL in which the `wipefs` step and the download-and-write pipeline both exit
0 — exactly the claim's hypotheses — yet the response is 500, not 200, and
the final progress stage is `error`, because the final `sync` (run with
`check=True`, a condition the claim omits) exits nonzero. -/
theorem sync_failure_defeats_success_claim :
    validate_ip defaultConfig reqGood.client_ip = true ∧
    reqGood.token = some defaultConfig.shared_secret ∧
    reqGood.body = ReqBody.parsed (some "/dev/mmcblk0") (some "http://x/img.gz") ∧
    envSyncFail.wipefsRun = RunOutcome.exitedWith 0 "" ∧
    envSyncFail.ddWriteRun = RunOutcome.exitedWith 0 "1024+0 records out" ∧
    (handle_write_image defaultConfig reqGood envSyncFail).status = 500 ∧
    (handle_write_image defaultConfig reqGood envSyncFail).body.successField ≠
      some true ∧
    (finalProgress initialProgress
      (handle_write_image defaultConfig reqGood envSyncFail)).stage =
      Stage.error := by
  decide

/-- C2 (amended): for an authorized request for `/dev/mmcblk0` with a `.gz`
URL, when `wipefs` exits 0, the partition-table refresh does not raise
through all of its fallbacks, the download-and-write pipeline exits 0, and
the final `sync` also exits 0, the response is HTTP 200 with `success: true`
and the final progress record is stage `complete` at percent 100. -/
theorem authorized_write_success (cfg : Config) (req : Request) (env : Env)
    (u w derr : String)
    (h1 : validate_ip cfg req.client_ip = true)
    (h2 : req.token = some cfg.shared_secret)
    (h3 : req.body = ReqBody.parsed (some "/dev/mmcblk0") (some u))
    (h4 : u ≠ "")
    (_hgz : (".gz".data).isSuffixOf u.data = true)
    (hwipe : env.wipefsRun = RunOutcome.exitedWith 0 w)
    (hrefresh : (refreshStep "/dev/mmcblk0" env).2 = none)
    (hdd : env.ddWriteRun = RunOutcome.exitedWith 0 derr)
    (hsync : env.syncFinalRun = SyncOutcome.exitedWith 0) :
    (handle_write_image cfg req env).status = 200 ∧
    (handle_write_image cfg req env).body.successField = some true ∧
    ∀ p0 : Progress,
      (finalProgress p0 (handle_write_image cfg req env)).stage =
        Stage.complete ∧
      (finalProgress p0 (handle_write_image cfg req env)).percent = 100 := by
  have h4' : pyTruthyStr (some u) = true := by simp [pyTruthyStr, h4]
  have hw2 : (wipeStep "/dev/mmcblk0" env).2 = none := by
    simp [wipeStep, hwipe]
  rw [handle_authorized_eq cfg req env (some "/dev/mmcblk0") (some u)
    h1 h2 h3 h4' (by decide)]
  simp only [Option.getD_some]
  refine ⟨?_, ?_, fun p0 => ⟨?_, ?_⟩⟩ <;>
  · simp only [runWrite, writeTail, hw2, hrefresh, hdd, hsync]
    simp [RespBody.successField, finalProgress, wipePhaseTrace,
      writingProgress, update_progress, AbortKind.toOut, List.getLastD_cons]

/-- Witness for `authorized_write_success`: the all-success environment on
the default configuration. -/
theorem authorized_write_success_witness :
    (handle_write_image defaultConfig reqGood envAllOk).status = 200 ∧
    (handle_write_image defaultConfig reqGood envAllOk).body.successField =
      some true ∧
    (finalProgress initialProgress
      (handle_write_image defaultConfig reqGood envAllOk)).stage =
      Stage.complete ∧
    (finalProgress initialProgress
      (handle_write_image defaultConfig reqGood envAllOk)).percent = 100 := by
  have := authorized_write_success defaultConfig reqGood envAllOk
    "http://x/img.gz" "" "1024+0 records out"
    (by decide) (by decide) (by decide) (by decide) (by decide)
    rfl (by decide) rfl rfl
  exact ⟨this.1, this.2.1, (this.2.2 initialProgress).1,
    (this.2.2 initialProgress).2⟩

/-- C3: an authorized, well-formed request whose download-and-write pipeline
raises the 600-second `TimeoutExpired` (the wipe and refresh phases having
completed without an escaping exception) is answered 504, and the progress
record ends in stage `error` with the error field `Timeout after 10
minutes`. -/
theorem dd_timeout_yields_504 (cfg : Config) (req : Request) (env : Env)
    (dev url : Option String)
    (h1 : validate_ip cfg req.client_ip = true)
    (h2 : req.token = some cfg.shared_secret)
    (h3 : req.body = ReqBody.parsed dev url)
    (h4 : pyTruthyStr url = true)
    (h5 : dev.getD "/dev/mmcblk0" ∈ valid_devices)
    (hw : (wipeStep (dev.getD "/dev/mmcblk0") env).2 = none)
    (hr : (refreshStep (dev.getD "/dev/mmcblk0") env).2 = none)
    (hdd : env.ddWriteRun = RunOutcome.raiseTimeout) :
    (handle_write_image cfg req env).status = 504 ∧
    ∀ p0 : Progress,
      (finalProgress p0 (handle_write_image cfg req env)).stage = Stage.error ∧
      (finalProgress p0 (handle_write_image cfg req env)).errField =
        some "Timeout after 10 minutes" := by
  rw [handle_authorized_eq cfg req env dev url h1 h2 h3 h4 h5]
  refine ⟨?_, fun p0 => ⟨?_, ?_⟩⟩ <;>
  · simp only [runWrite, writeTail, hw, hr, hdd]
    simp [AbortKind.toOut, finalProgress, wipePhaseTrace, timeoutProgress,
      writingProgress, update_progress, List.getLastD_cons]

/-- Witness for `dd_timeout_yields_504`: the environment whose download
pipeline times out, on the default configuration. -/
theorem dd_timeout_yields_504_witness :
    (handle_write_image defaultConfig reqGood envDdTimeout).status = 504 ∧
    (finalProgress initialProgress
      (handle_write_image defaultConfig reqGood envDdTimeout)).stage =
      Stage.error ∧
    (finalProgress initialProgress
      (handle_write_image defaultConfig reqGood envDdTimeout)).errField =
      some "Timeout after 10 minutes" := by
  have := dd_timeout_yields_504 defaultConfig reqGood envDdTimeout
    (some "/dev/mmcblk0") (some "http://x/img.gz")
    (by decide) (by decide) (by decide) (by decide) (by decide)
    (by decide) (by decide) rfl
  exact ⟨this.1, (this.2 initialProgress).1, (this.2 initialProgress).2⟩

/-- C10: an authorized request whose parsed body has an `image_url` but no
`device` field resolves the device to the default `/dev/mmcblk0`, which is in
the fixed allow-list, so the request is not answered 400 and the write
sequence starts against `/dev/mmcblk0`. -/
theorem missing_device_defaults_to_mmcblk0 (cfg : Config) (req : Request)
    (env : Env) (url : String)
    (h1 : validate_ip cfg req.client_ip = true)
    (h2 : req.token = some cfg.shared_secret)
    (h3 : req.body = ReqBody.parsed none (some url))
    (h4 : url ≠ "") :
    Option.getD (none : Option String) "/dev/mmcblk0" = "/dev/mmcblk0" ∧
    "/dev/mmcblk0" ∈ valid_devices ∧
    (handle_write_image cfg req env).status ≠ 400 ∧
    (handle_write_image cfg req env).trace.head? =
      some (update_progress Stage.wiping 0
        "Preparing to write image to /dev/mmcblk0" none) := by
  have h4' : pyTruthyStr (some url) = true := by simp [pyTruthyStr, h4]
  rw [handle_authorized_eq cfg req env none (some url) h1 h2 h3 h4' (by decide)]
  simp only [Option.getD_none, Option.getD_some]
  refine ⟨by trivial, by decide, ?_, ?_⟩
  · rcases runWrite_status_cases "/dev/mmcblk0" url env with h | h | h <;>
      rw [h] <;> decide
  · rw [(runWrite_trace_head "/dev/mmcblk0" url env).1]
    decide

/-- Witness for `missing_device_defaults_to_mmcblk0`: the device-less request
on the default configuration. -/
theorem missing_device_defaults_to_mmcblk0_witness :
    (handle_write_image defaultConfig reqNoDevice envAllOk).status ≠ 400 ∧
    (handle_write_image defaultConfig reqNoDevice envAllOk).trace.head? =
      some (update_progress Stage.wiping 0
        "Preparing to write image to /dev/mmcblk0" none) := by
  have := missing_device_defaults_to_mmcblk0 defaultConfig reqNoDevice envAllOk
    "http://x/img.gz" (by decide) (by decide) (by decide) (by decide)
  exact ⟨this.2.2.1, this.2.2.2⟩

end Netboot
